import Mathlib

/-!
Shallow embedding of `src/moments/services/azure_vision.py` (the `moments`
repository's Azure Computer Vision client) and verification of its
specification claims.

The module has two operations, `generate_alt_text` and `generate_image_tags`.
Both read two configuration strings, read an image file, POST its bytes to the
Azure endpoint, and parse the JSON response.  We embed:

  * JSON values as an inductive type `Json` (numbers as rationals);
  * Python run-time errors relevant to this code as `PyError`
    (`KeyError`, `TypeError`, `IndexError`, `AttributeError`,
    `requests.HTTPError`, file errors);
  * the process environment, the filesystem and the network as explicit
    function parameters (oracles), so that the operations are pure;
  * the observable side effects (one file read, one HTTP POST) as an explicit
    trace of `Effect`s returned alongside the result, so that "performs no
    file read and no network request" is the statement that the trace is `[]`.

Python semantics embedded faithfully where the code relies on them:
`dict.get` with and without a default, truthiness of arbitrary values
(`if captions:`), direct subscripts (`captions[0]["text"]`) raising
`IndexError`/`KeyError`/`TypeError`, iteration over non-list values, ordered
comparison of an arbitrary value against the float `0.5`
(`TypeError` unless numeric or boolean), and `requests.Response.raise_for_status`
which raises exactly for status codes in 400..599.
-/

namespace AzureVision

/-- A JSON value as produced by `response.json()`.  Numbers are rationals
(JSON numbers are decimal literals).  Objects keep their fields as an ordered
association list, mirroring Python's insertion-ordered `dict`. -/
inductive Json where
  | null
  | bool (b : Bool)
  | num (q : ℚ)
  | str (s : String)
  | arr (elems : List Json)
  | obj (fields : List (String × Json))

/-- Lookup of a key in an object's field list (Python `dict` access; keys are
unique in a `dict`, so first match is the match). -/
def lookupJson : List (String × Json) → String → Option Json
  | [], _ => none
  | (k, v) :: rest, key => if k = key then some v else lookupJson rest key

/-- The Python run-time errors this code can raise. -/
inductive PyError where
  | keyError (key : String)
  | typeError
  | indexError
  | attributeError
  | httpError (status : Nat)
  | fileError (path : String)
deriving DecidableEq

/-- Python truthiness (`if captions:`): `None`, `False`, zero, and empty
containers/strings are falsy. -/
def Json.truthy : Json → Bool
  | .null => false
  | .bool b => b
  | .num q => decide (q ≠ 0)
  | .str s => decide (s ≠ "")
  | .arr xs => !xs.isEmpty
  | .obj fs => !fs.isEmpty

/-- Python `x.get(key, default)`: `AttributeError` if `x` is not a `dict`,
otherwise the stored value (even if it is `None`) or the default. -/
def pyDictGetD (j : Json) (key : String) (d : Json) : Except PyError Json :=
  match j with
  | .obj fs => .ok ((lookupJson fs key).getD d)
  | _ => .error .attributeError

/-- Python `x.get(key)` (one-argument form): default is `None`. -/
def pyDictGet (j : Json) (key : String) : Except PyError Json :=
  pyDictGetD j key .null

/-- Python `x[0]`: head of a list (or `IndexError`), first character of a
string (or `IndexError`), `KeyError` on a `dict` whose keys are strings,
`TypeError` otherwise. -/
def pyIndexZero : Json → Except PyError Json
  | .arr [] => .error .indexError
  | .arr (x :: _) => .ok x
  | .str s =>
      match s.toList with
      | [] => .error .indexError
      | c :: _ => .ok (.str c.toString)
  | .obj _ => .error (.keyError "0")
  | _ => .error .typeError

/-- Python `x[key]` for a string key: field lookup on a `dict` (or
`KeyError`), `TypeError` on anything else. -/
def pySubscript (j : Json) (key : String) : Except PyError Json :=
  match j with
  | .obj fs =>
      match lookupJson fs key with
      | some v => .ok v
      | none => .error (.keyError key)
  | _ => .error .typeError

/-- The source's confidence threshold `0.5`, as the exact rational 1/2
(the float `0.5` is exact).  Written as a reduced fraction so that the kernel
can evaluate comparisons against it. -/
def half : ℚ := ⟨1, 2, by decide, by decide⟩

/-- Python `confidence >= 0.5`: numeric comparison for numbers, booleans
compare as 1/0, everything else raises `TypeError`. -/
def pyGeHalf : Json → Except PyError Bool
  | .num q => .ok (decide (half ≤ q))
  | .bool b => .ok b
  | _ => .error .typeError

/-- Python `for x in v`: lists yield elements, dicts yield their keys,
strings yield one-character strings, everything else raises `TypeError`. -/
def pyIter : Json → Except PyError (List Json)
  | .arr xs => .ok xs
  | .obj fs => .ok (fs.map fun f => Json.str f.1)
  | .str s => .ok (s.toList.map fun c => Json.str c.toString)
  | _ => .error .typeError

/-- The process environment: `os.getenv`. -/
structure Env where
  getenv : String → Option String

/-- The module-level globals of `azure_vision.py`:
`AZURE_VISION_ENDPOINT` and `AZURE_VISION_KEY`. -/
structure Config where
  endpoint : Option String
  apiKey : Option String
deriving DecidableEq

/-- Module import (lines 11-12 of the source): both globals are read from the
environment once, when the module loads (after `load_dotenv`; `env` is the
environment as it stands at that moment). -/
def moduleInit (env : Env) : Config :=
  { endpoint := env.getenv "AZURE_VISION_ENDPOINT"
    apiKey := env.getenv "AZURE_VISION_KEY" }

/-- `not AZURE_VISION_ENDPOINT or not AZURE_VISION_KEY`: a missing (`None`)
or empty string is falsy. -/
def Config.credsMissing (c : Config) : Bool :=
  (c.endpoint.getD "" == "") || (c.apiKey.getD "" == "")

/-- An outbound HTTP request as built by `requests.post(url, headers=...,
params=..., data=...)`.  `data` is the raw request body (the image bytes). -/
structure Request where
  url : String
  headers : List (String × String)
  params : List (String × String)
  data : List Nat
deriving DecidableEq

/-- The remote service's response: HTTP status code and JSON body. -/
structure HttpResponse where
  status : Nat
  body : Json

/-- The observable side effects of one call, in order. -/
inductive Effect where
  | fileRead (path : String)
  | httpPost (req : Request)
deriving DecidableEq

/-- The filesystem oracle: `open(path, 'rb').read()` yields the file's bytes
or fails. -/
def FileSystem := String → Except PyError (List Nat)

/-- The network oracle: sending a request yields a response. -/
def Network := Request → HttpResponse

/-- `requests.Response.raise_for_status`: raises `HTTPError` exactly for
status codes in 400..499 (client error) and 500..599 (server error). -/
def raise_for_status (status : Nat) : Except PyError Unit :=
  if 400 ≤ status ∧ status < 600 then .error (.httpError status) else .ok ()

/-- The response-parsing tail of `generate_alt_text` (source lines 44-50):
`result.get("description", {}).get("captions", [])`, then the first
caption's `"text"` if the list is truthy, else the fallback string. -/
def generate_alt_text_parse (result : Json) : Except PyError Json := do
  let desc ← pyDictGetD result "description" (.obj [])
  let captions ← pyDictGetD desc "captions" (.arr [])
  if captions.truthy then do
    let c0 ← pyIndexZero captions
    pySubscript c0 "text"
  else
    .ok (.str "No alt text (no caption returned).")

/-- The tag-accumulating loop of `generate_image_tags` (source lines 81-87):
`tag_info.get("name")`, `tag_info.get("confidence", 0)`, keep the name when
`confidence >= 0.5`.  `acc` holds the kept names in reverse (Python appends). -/
def tagsLoop : List Json → List Json → Except PyError (List Json)
  | [], acc => .ok acc.reverse
  | tag_info :: rest, acc => do
    let tag_name ← pyDictGet tag_info "name"
    let confidence ← pyDictGetD tag_info "confidence" (.num 0)
    let keep ← pyGeHalf confidence
    if keep then tagsLoop rest (tag_name :: acc) else tagsLoop rest acc

/-- The response-parsing tail of `generate_image_tags` (source lines 80-87). -/
def generate_image_tags_parse (result : Json) : Except PyError (List Json) := do
  let tagsJson ← pyDictGetD result "tags" (.arr [])
  let items ← pyIter tagsJson
  tagsLoop items []

/-- `generate_alt_text(image_path)` (source lines 16-50) given the module
globals `cfg` and the filesystem/network oracles.  Returns the Python return
value (a `Json`; success values are strings in practice) or the raised error,
together with the trace of side effects performed. -/
def generate_alt_text (cfg : Config) (fs : FileSystem) (net : Network)
    (image_path : String) : Except PyError Json × List Effect :=
  if cfg.credsMissing then
    (.ok (.str "No alt text (Azure credentials not set)."), [])
  else
    let vision_url :=
      cfg.endpoint.getD "" ++ "/vision/v3.2/analyze?visualFeatures=Description"
    let headers := [("Ocp-Apim-Subscription-Key", cfg.apiKey.getD ""),
                    ("Content-Type", "application/octet-stream")]
    let params := [("maxCandidates", "1"), ("language", "en")]
    match fs image_path with
    | .error e => (.error e, [.fileRead image_path])
    | .ok image_data =>
      let req : Request :=
        { url := vision_url, headers := headers, params := params,
          data := image_data }
      let response := net req
      let trace := [Effect.fileRead image_path, Effect.httpPost req]
      match raise_for_status response.status with
      | .error e => (.error e, trace)
      | .ok _ => (generate_alt_text_parse response.body, trace)

/-- `generate_image_tags(image_path)` (source lines 53-88) given the module
globals `cfg` and the filesystem/network oracles.  The returned list holds the
appended `tag_info.get("name")` values, which are `Json.null` when a kept
entry has no `"name"` field. -/
def generate_image_tags (cfg : Config) (fs : FileSystem) (net : Network)
    (image_path : String) : Except PyError (List Json) × List Effect :=
  if cfg.credsMissing then
    (.ok [], [])
  else
    let vision_url :=
      cfg.endpoint.getD "" ++ "/vision/v3.2/analyze?visualFeatures=Tags"
    let headers := [("Ocp-Apim-Subscription-Key", cfg.apiKey.getD ""),
                    ("Content-Type", "application/octet-stream")]
    let params := [("visualFeatures", "Tags"), ("language", "en")]
    match fs image_path with
    | .error e => (.error e, [.fileRead image_path])
    | .ok image_data =>
      let req : Request :=
        { url := vision_url, headers := headers, params := params,
          data := image_data }
      let response := net req
      let trace := [Effect.fileRead image_path, Effect.httpPost req]
      match raise_for_status response.status with
      | .error e => (.error e, trace)
      | .ok _ => (generate_image_tags_parse response.body, trace)

/-- A call to `generate_alt_text` as executed in the running process:
the module globals were captured by `moduleInit` from `importEnv` (the
environment at import time); `callEnv`, the environment current at call time,
is never consulted by the source code. -/
def generate_alt_text_call (importEnv : Env) (callEnv : Env) (fs : FileSystem)
    (net : Network) (image_path : String) : Except PyError Json × List Effect :=
  generate_alt_text (moduleInit importEnv) fs net image_path

/-- A call to `generate_image_tags` as executed in the running process; as
with `generate_alt_text_call`, only the import-time environment matters. -/
def generate_image_tags_call (importEnv : Env) (callEnv : Env) (fs : FileSystem)
    (net : Network) (image_path : String) :
    Except PyError (List Json) × List Effect :=
  generate_image_tags (moduleInit importEnv) fs net image_path

/-- A well-formed tag entry of the service response: an object with exactly a
string `"name"` and a numeric `"confidence"`. -/
def mkTagEntry (p : String × ℚ) : Json :=
  .obj [("name", .str p.1), ("confidence", .num p.2)]

/-! ## Helper lemmas -/

/-- Sanity: `half` is the rational one half, i.e. the source's `0.5`. -/
theorem half_eq : half = 1/2 := by
  rw [← Rat.num_div_den half]; norm_num [half]

/-- Both credentials present and non-empty: the short-circuit check fails. -/
theorem credsMissing_false (e k : String) (he : e ≠ "") (hk : k ≠ "") :
    Config.credsMissing ⟨some e, some k⟩ = false := by
  simp [Config.credsMissing, he, hk]

/-- A missing or empty credential makes the short-circuit check succeed. -/
theorem credsMissing_true (c : Config)
    (h : c.endpoint.getD "" = "" ∨ c.apiKey.getD "" = "") :
    c.credsMissing = true := by
  rcases h with h | h <;> simp [Config.credsMissing, h]

/-- The tag loop on well-formed entries keeps exactly the names with
confidence at least one half, in order, appended after the accumulator. -/
theorem tagsLoop_mkTagEntry (pairs : List (String × ℚ)) (acc : List Json) :
    tagsLoop (pairs.map mkTagEntry) acc
      = .ok (acc.reverse ++
          (pairs.filter fun p => half ≤ p.2).map fun p => Json.str p.1) := by
  induction pairs generalizing acc with
  | nil => simp [tagsLoop]
  | cons p rest ih =>
    by_cases h : half ≤ p.2
    · simp [tagsLoop, mkTagEntry, pyDictGet, pyDictGetD, lookupJson, pyGeHalf,
        h, ih, List.filter_cons, Bind.bind, Except.bind]
    · simp [tagsLoop, mkTagEntry, pyDictGet, pyDictGetD, lookupJson, pyGeHalf,
        h, ih, List.filter_cons, Bind.bind, Except.bind]

/-- A run of `generate_image_tags` with credentials set, a readable file and a
non-raising status: result is the parsed body; trace is one file read then one
POST of the image bytes to the Tags URL. -/
theorem generate_image_tags_run (e k path : String) (he : e ≠ "") (hk : k ≠ "")
    (bytes : List Nat) (net : Network)
    (hs : ¬(400 ≤ (net ⟨e ++ "/vision/v3.2/analyze?visualFeatures=Tags",
        [("Ocp-Apim-Subscription-Key", k), ("Content-Type", "application/octet-stream")],
        [("visualFeatures", "Tags"), ("language", "en")], bytes⟩).status ∧
        (net ⟨e ++ "/vision/v3.2/analyze?visualFeatures=Tags",
        [("Ocp-Apim-Subscription-Key", k), ("Content-Type", "application/octet-stream")],
        [("visualFeatures", "Tags"), ("language", "en")], bytes⟩).status < 600)) :
    generate_image_tags ⟨some e, some k⟩ (fun _ => .ok bytes) net path
      = (generate_image_tags_parse
            (net ⟨e ++ "/vision/v3.2/analyze?visualFeatures=Tags",
              [("Ocp-Apim-Subscription-Key", k), ("Content-Type", "application/octet-stream")],
              [("visualFeatures", "Tags"), ("language", "en")], bytes⟩).body,
         [.fileRead path,
          .httpPost ⟨e ++ "/vision/v3.2/analyze?visualFeatures=Tags",
            [("Ocp-Apim-Subscription-Key", k), ("Content-Type", "application/octet-stream")],
            [("visualFeatures", "Tags"), ("language", "en")], bytes⟩]) := by
  simp [generate_image_tags, credsMissing_false e k he hk, raise_for_status, hs]

/-- A run of `generate_alt_text` with credentials set, a readable file and a
non-raising status: result is the parsed body; trace is one file read then one
POST of the image bytes to the Description URL. -/
theorem generate_alt_text_run (e k path : String) (he : e ≠ "") (hk : k ≠ "")
    (bytes : List Nat) (net : Network)
    (hs : ¬(400 ≤ (net ⟨e ++ "/vision/v3.2/analyze?visualFeatures=Description",
        [("Ocp-Apim-Subscription-Key", k), ("Content-Type", "application/octet-stream")],
        [("maxCandidates", "1"), ("language", "en")], bytes⟩).status ∧
        (net ⟨e ++ "/vision/v3.2/analyze?visualFeatures=Description",
        [("Ocp-Apim-Subscription-Key", k), ("Content-Type", "application/octet-stream")],
        [("maxCandidates", "1"), ("language", "en")], bytes⟩).status < 600)) :
    generate_alt_text ⟨some e, some k⟩ (fun _ => .ok bytes) net path
      = (generate_alt_text_parse
            (net ⟨e ++ "/vision/v3.2/analyze?visualFeatures=Description",
              [("Ocp-Apim-Subscription-Key", k), ("Content-Type", "application/octet-stream")],
              [("maxCandidates", "1"), ("language", "en")], bytes⟩).body,
         [.fileRead path,
          .httpPost ⟨e ++ "/vision/v3.2/analyze?visualFeatures=Description",
            [("Ocp-Apim-Subscription-Key", k), ("Content-Type", "application/octet-stream")],
            [("maxCandidates", "1"), ("language", "en")], bytes⟩]) := by
  simp [generate_alt_text, credsMissing_false e k he hk, raise_for_status, hs]

/-! ## Claims -/

/-- C1: for every service response whose `tags` field is a sequence of
name/confidence entries, `generate_image_tags` returns exactly the names of
the entries whose confidence is at least 0.5, dropping those below 0.5, in
the order returned by the service. -/
theorem C1_tags_filtered_in_order (e k path : String) (he : e ≠ "") (hk : k ≠ "")
    (bytes : List Nat) (status : Nat) (h2 : 200 ≤ status) (h3 : status < 300)
    (pairs : List (String × ℚ)) :
    (generate_image_tags ⟨some e, some k⟩ (fun _ => .ok bytes)
        (fun _ => ⟨status, .obj [("tags", .arr (pairs.map mkTagEntry))]⟩) path).1
      = .ok ((pairs.filter fun p => half ≤ p.2).map fun p => Json.str p.1) := by
  have hs : ¬(400 ≤ status ∧ status < 600) := by omega
  rw [generate_image_tags_run e k path he hk bytes _ hs]
  simp [generate_image_tags_parse, pyDictGetD, lookupJson, pyIter,
    tagsLoop_mkTagEntry, Bind.bind, Except.bind]

/-- C1 witness: the spec's own example — `cat` at 0.9 kept, `indoor` at 0.4
dropped. -/
theorem C1_tags_filtered_in_order_witness :
    (generate_image_tags ⟨some "https://r.example", some "key"⟩ (fun _ => .ok [1])
        (fun _ => ⟨200, .obj [("tags", .arr ([("cat", (⟨9, 10, by decide, by decide⟩ : ℚ)),
            ("indoor", ⟨2, 5, by decide, by decide⟩)].map mkTagEntry))]⟩) "img.png").1
      = .ok [Json.str "cat"] :=
  (C1_tags_filtered_in_order "https://r.example" "key" "img.png" (by decide)
      (by decide) [1] 200 (by decide) (by decide)
      [("cat", ⟨9, 10, by decide, by decide⟩),
       ("indoor", ⟨2, 5, by decide, by decide⟩)]).trans rfl

/-- C2 counterexample: a final status of 300 is outside 200..299, yet neither
operation fails — `raise_for_status` raises only for 400..599, so both
proceed to parse the body and return a value. -/
theorem C2_counterexample_status_300 :
    (generate_alt_text ⟨some "https://r.example", some "key"⟩ (fun _ => .ok [1])
        (fun _ => ⟨300, Json.obj []⟩) "img.png").1
      = .ok (Json.str "No alt text (no caption returned).")
    ∧ (generate_image_tags ⟨some "https://r.example", some "key"⟩ (fun _ => .ok [1])
        (fun _ => ⟨300, Json.obj []⟩) "img.png").1
      = .ok [] :=
  ⟨rfl, rfl⟩

/-- C2 amended: for every HTTP status code in 400..599 both operations fail
immediately with an error carrying that status code; other non-2xx codes
(1xx, 3xx) do not cause a failure. -/
theorem C2_http_error_400_to_599 (e k path : String) (he : e ≠ "") (hk : k ≠ "")
    (bytes : List Nat) (status : Nat) (h4 : 400 ≤ status) (h6 : status < 600)
    (body : Json) :
    (generate_alt_text ⟨some e, some k⟩ (fun _ => .ok bytes)
        (fun _ => ⟨status, body⟩) path).1 = .error (.httpError status)
    ∧ (generate_image_tags ⟨some e, some k⟩ (fun _ => .ok bytes)
        (fun _ => ⟨status, body⟩) path).1 = .error (.httpError status) := by
  constructor <;>
    simp [generate_alt_text, generate_image_tags,
      credsMissing_false e k he hk, raise_for_status, h4, h6]

/-- C2 amended witness: a 404 response makes both operations raise
`HTTPError 404`. -/
theorem C2_http_error_400_to_599_witness :
    (generate_alt_text ⟨some "https://r.example", some "key"⟩ (fun _ => .ok [1])
        (fun _ => ⟨404, Json.obj []⟩) "img.png").1 = .error (.httpError 404)
    ∧ (generate_image_tags ⟨some "https://r.example", some "key"⟩ (fun _ => .ok [1])
        (fun _ => ⟨404, Json.obj []⟩) "img.png").1 = .error (.httpError 404) :=
  C2_http_error_400_to_599 "https://r.example" "key" "img.png" (by decide)
    (by decide) [1] 404 (by decide) (by decide) (Json.obj [])

/-- C3: with the endpoint or the API key missing or empty, `generate_alt_text`
returns exactly the credentials fallback string and performs no side effect at
all — no file read and no network request (empty effect trace). -/
theorem C3_alt_text_creds_fallback (cfg : Config) (fs : FileSystem)
    (net : Network) (path : String)
    (h : cfg.endpoint.getD "" = "" ∨ cfg.apiKey.getD "" = "") :
    generate_alt_text cfg fs net path
      = (.ok (.str "No alt text (Azure credentials not set)."), []) := by
  simp [generate_alt_text, credsMissing_true cfg h]

/-- C3 witness: endpoint unset, key set. -/
theorem C3_alt_text_creds_fallback_witness :
    generate_alt_text ⟨none, some "key"⟩ (fun _ => .ok [1])
        (fun _ => ⟨200, Json.obj []⟩) "img.png"
      = (.ok (.str "No alt text (Azure credentials not set)."), []) :=
  C3_alt_text_creds_fallback ⟨none, some "key"⟩ (fun _ => .ok [1])
    (fun _ => ⟨200, Json.obj []⟩) "img.png" (Or.inl rfl)

/-- C4: with the endpoint or the API key missing or empty,
`generate_image_tags` returns the empty list — a different fallback from
`generate_alt_text`'s string — and performs no file read and no network
request (empty effect trace). -/
theorem C4_tags_creds_empty (cfg : Config) (fs : FileSystem)
    (net : Network) (path : String)
    (h : cfg.endpoint.getD "" = "" ∨ cfg.apiKey.getD "" = "") :
    generate_image_tags cfg fs net path = (.ok [], []) := by
  simp [generate_image_tags, credsMissing_true cfg h]

/-- C4 witness: endpoint set, key empty. -/
theorem C4_tags_creds_empty_witness :
    generate_image_tags ⟨some "https://r.example", some ""⟩ (fun _ => .ok [1])
        (fun _ => ⟨200, Json.obj []⟩) "img.png" = (.ok [], []) :=
  C4_tags_creds_empty ⟨some "https://r.example", some ""⟩ (fun _ => .ok [1])
    (fun _ => ⟨200, Json.obj []⟩) "img.png" (Or.inr rfl)

/-- C5: on a successful (2xx) response whose `description.captions` list is
non-empty, `generate_alt_text` returns the `"text"` field of the first caption
entry. -/
theorem C5_first_caption_text (e k path : String) (he : e ≠ "") (hk : k ≠ "")
    (bytes : List Nat) (status : Nat) (h2 : 200 ≤ status) (h3 : status < 300)
    (bf df cf : List (String × Json)) (caps : List Json) (tv : Json)
    (hdesc : lookupJson bf "description" = some (.obj df))
    (hcaps : lookupJson df "captions" = some (.arr (Json.obj cf :: caps)))
    (htext : lookupJson cf "text" = some tv) :
    (generate_alt_text ⟨some e, some k⟩ (fun _ => .ok bytes)
        (fun _ => ⟨status, .obj bf⟩) path).1 = .ok tv := by
  have hs : ¬(400 ≤ status ∧ status < 600) := by omega
  rw [generate_alt_text_run e k path he hk bytes _ hs]
  simp [generate_alt_text_parse, pyDictGetD, hdesc, hcaps, Json.truthy,
    pyIndexZero, pySubscript, htext, Bind.bind, Except.bind]

/-- C5 witness: the spec's own example caption. -/
theorem C5_first_caption_text_witness :
    (generate_alt_text ⟨some "https://r.example", some "key"⟩ (fun _ => .ok [1])
        (fun _ => ⟨200, .obj [("description", .obj [("captions",
            .arr [.obj [("text", .str "a cat sitting on a chair")]])])]⟩)
        "img.png").1
      = .ok (.str "a cat sitting on a chair") :=
  C5_first_caption_text "https://r.example" "key" "img.png" (by decide)
    (by decide) [1] 200 (by decide) (by decide)
    [("description", .obj [("captions",
        .arr [.obj [("text", .str "a cat sitting on a chair")]])])]
    [("captions", .arr [.obj [("text", .str "a cat sitting on a chair")]])]
    [("text", .str "a cat sitting on a chair")] [] _ rfl rfl rfl

/-- C6: on a successful (2xx) response whose `description.captions` list is
empty, `generate_alt_text` returns exactly the no-caption fallback string. -/
theorem C6_empty_captions_fallback (e k path : String) (he : e ≠ "") (hk : k ≠ "")
    (bytes : List Nat) (status : Nat) (h2 : 200 ≤ status) (h3 : status < 300)
    (bf df : List (String × Json))
    (hdesc : lookupJson bf "description" = some (.obj df))
    (hcaps : lookupJson df "captions" = some (.arr [])) :
    (generate_alt_text ⟨some e, some k⟩ (fun _ => .ok bytes)
        (fun _ => ⟨status, .obj bf⟩) path).1
      = .ok (.str "No alt text (no caption returned).") := by
  have hs : ¬(400 ≤ status ∧ status < 600) := by omega
  rw [generate_alt_text_run e k path he hk bytes _ hs]
  simp [generate_alt_text_parse, pyDictGetD, hdesc, hcaps, Json.truthy,
    Bind.bind, Except.bind]

/-- C6 witness: `description.captions = []`. -/
theorem C6_empty_captions_fallback_witness :
    (generate_alt_text ⟨some "https://r.example", some "key"⟩ (fun _ => .ok [1])
        (fun _ => ⟨200, .obj [("description", .obj [("captions", .arr [])])]⟩)
        "img.png").1
      = .ok (.str "No alt text (no caption returned).") :=
  C6_empty_captions_fallback "https://r.example" "key" "img.png" (by decide)
    (by decide) [1] 200 (by decide) (by decide)
    [("description", .obj [("captions", .arr [])])]
    [("captions", .arr [])] rfl rfl

/-- C7 counterexample: a 2xx response whose captions list is non-empty but
whose first caption lacks the `"text"` field makes `generate_alt_text` raise
`KeyError` (the source indexes `captions[0]["text"]` directly, without a
default), contradicting "never raise an error due to the missing field". -/
theorem C7_counterexample_missing_text :
    (generate_alt_text ⟨some "https://r.example", some "key"⟩ (fun _ => .ok [1])
        (fun _ => ⟨200, Json.obj [("description",
            Json.obj [("captions", Json.arr [Json.obj []])])]⟩) "img.png").1
      = .error (.keyError "text") :=
  rfl

/-- C7 amended: a 2xx response missing `description`, missing `captions`
under a present `description`, missing `tags`, containing a kept tag entry
missing `name` (`None` is appended), or containing a tag entry missing
`confidence` (treated as 0 and dropped) yields a defined no-result value
without error; but a missing `"text"` on the first caption of a non-empty
captions list is NOT tolerated (see the counterexample). -/
theorem C7_tolerates_most_missing_fields (e k path : String)
    (he : e ≠ "") (hk : k ≠ "") (bytes : List Nat)
    (status : Nat) (h2 : 200 ≤ status) (h3 : status < 300)
    (bf : List (String × Json)) (hbf : lookupJson bf "description" = none)
    (bf2 df : List (String × Json))
    (hbf2 : lookupJson bf2 "description" = some (.obj df))
    (hdf : lookupJson df "captions" = none)
    (tf : List (String × Json)) (htf : lookupJson tf "tags" = none)
    (nf : List (String × Json)) (hnf : lookupJson nf "name" = none)
    (q : ℚ) (hq : lookupJson nf "confidence" = some (.num q)) (hkeep : half ≤ q)
    (cf : List (String × Json)) (hcf : lookupJson cf "confidence" = none) :
    (generate_alt_text ⟨some e, some k⟩ (fun _ => .ok bytes)
        (fun _ => ⟨status, .obj bf⟩) path).1
      = .ok (.str "No alt text (no caption returned).")
    ∧ (generate_alt_text ⟨some e, some k⟩ (fun _ => .ok bytes)
        (fun _ => ⟨status, .obj bf2⟩) path).1
      = .ok (.str "No alt text (no caption returned).")
    ∧ (generate_image_tags ⟨some e, some k⟩ (fun _ => .ok bytes)
        (fun _ => ⟨status, .obj tf⟩) path).1 = .ok []
    ∧ (generate_image_tags ⟨some e, some k⟩ (fun _ => .ok bytes)
        (fun _ => ⟨status, .obj [("tags", .arr [Json.obj nf])]⟩) path).1
      = .ok [Json.null]
    ∧ (generate_image_tags ⟨some e, some k⟩ (fun _ => .ok bytes)
        (fun _ => ⟨status, .obj [("tags", .arr [Json.obj cf])]⟩) path).1
      = .ok [] := by
  have hs : ¬(400 ≤ status ∧ status < 600) := by omega
  refine ⟨?_, ?_, ?_, ?_, ?_⟩
  · rw [generate_alt_text_run e k path he hk bytes _ hs]
    simp [generate_alt_text_parse, pyDictGetD, hbf, lookupJson, Json.truthy,
      Bind.bind, Except.bind]
  · rw [generate_alt_text_run e k path he hk bytes _ hs]
    simp [generate_alt_text_parse, pyDictGetD, hbf2, hdf, Json.truthy,
      Bind.bind, Except.bind]
  · rw [generate_image_tags_run e k path he hk bytes _ hs]
    simp [generate_image_tags_parse, pyDictGetD, htf, pyIter, tagsLoop,
      Bind.bind, Except.bind]
  · rw [generate_image_tags_run e k path he hk bytes _ hs]
    simp [generate_image_tags_parse, pyDictGetD, lookupJson, pyIter, tagsLoop,
      pyDictGet, hnf, hq, pyGeHalf, hkeep, Bind.bind, Except.bind]
  · rw [generate_image_tags_run e k path he hk bytes _ hs]
    have hhalf : ¬ (half ≤ (0 : ℚ)) := by
      rw [half_eq]; norm_num
    simp [generate_image_tags_parse, pyDictGetD, lookupJson, pyIter, tagsLoop,
      pyDictGet, hcf, pyGeHalf, hhalf, Bind.bind, Except.bind]

/-- C7 amended witness: an entirely empty 2xx body; a `description` with no
`captions`; a body with no `tags`; a lone name-less entry at confidence 0.9
(appends `None`); and a lone confidence-less tag entry (dropped). -/
theorem C7_tolerates_most_missing_fields_witness :
    (generate_alt_text ⟨some "https://r.example", some "key"⟩ (fun _ => .ok [1])
        (fun _ => ⟨200, .obj []⟩) "img.png").1
      = .ok (.str "No alt text (no caption returned).")
    ∧ (generate_alt_text ⟨some "https://r.example", some "key"⟩ (fun _ => .ok [1])
        (fun _ => ⟨200, .obj [("description", .obj [])]⟩) "img.png").1
      = .ok (.str "No alt text (no caption returned).")
    ∧ (generate_image_tags ⟨some "https://r.example", some "key"⟩ (fun _ => .ok [1])
        (fun _ => ⟨200, .obj []⟩) "img.png").1 = .ok []
    ∧ (generate_image_tags ⟨some "https://r.example", some "key"⟩ (fun _ => .ok [1])
        (fun _ => ⟨200, .obj [("tags", .arr [Json.obj
            [("confidence", .num ⟨9, 10, by decide, by decide⟩)]])]⟩)
        "img.png").1 = .ok [Json.null]
    ∧ (generate_image_tags ⟨some "https://r.example", some "key"⟩ (fun _ => .ok [1])
        (fun _ => ⟨200, .obj [("tags", .arr [Json.obj [("name", .str "cat")]])]⟩)
        "img.png").1 = .ok [] :=
  C7_tolerates_most_missing_fields "https://r.example" "key" "img.png"
    (by decide) (by decide) [1] 200 (by decide) (by decide)
    [] rfl [("description", .obj [])] [] rfl rfl [] rfl
    [("confidence", .num ⟨9, 10, by decide, by decide⟩)] rfl
    ⟨9, 10, by decide, by decide⟩ rfl (by decide)
    [("name", .str "cat")] rfl

/-- C8 counterexample: the module read the environment at import time into
globals.  With an empty environment at import and a fully populated
environment at call time, `generate_alt_text` still returns the
credentials fallback; had the configuration been read at call time (import
under the populated environment), the same call would not. -/
theorem C8_counterexample_env_change_ignored :
    (generate_alt_text_call ⟨fun _ => none⟩
        ⟨fun v => if v = "AZURE_VISION_ENDPOINT" then some "https://r.example"
          else if v = "AZURE_VISION_KEY" then some "key" else none⟩
        (fun _ => .ok [1]) (fun _ => ⟨200, Json.obj []⟩) "img.png").1
      = .ok (Json.str "No alt text (Azure credentials not set).")
    ∧ (generate_alt_text_call
        ⟨fun v => if v = "AZURE_VISION_ENDPOINT" then some "https://r.example"
          else if v = "AZURE_VISION_KEY" then some "key" else none⟩
        ⟨fun v => if v = "AZURE_VISION_ENDPOINT" then some "https://r.example"
          else if v = "AZURE_VISION_KEY" then some "key" else none⟩
        (fun _ => .ok [1]) (fun _ => ⟨200, Json.obj []⟩) "img.png").1
      = .ok (Json.str "No alt text (no caption returned).") :=
  ⟨rfl, rfl⟩

/-- C8 amended: the two configuration values are read from the environment
once, at module import, into module-level globals; every call uses those
globals, so the environment current at call time is irrelevant and a change
to it between two calls is not reflected. -/
theorem C8_config_read_at_import (importEnv env1 env2 : Env) (fs : FileSystem)
    (net : Network) (path : String) :
    moduleInit importEnv
      = ⟨importEnv.getenv "AZURE_VISION_ENDPOINT",
         importEnv.getenv "AZURE_VISION_KEY"⟩
    ∧ generate_alt_text_call importEnv env1 fs net path
      = generate_alt_text_call importEnv env2 fs net path
    ∧ generate_image_tags_call importEnv env1 fs net path
      = generate_image_tags_call importEnv env2 fs net path :=
  ⟨rfl, rfl, rfl⟩

/-- C9 counterexample: the tag request is not body-less — its body is the raw
image bytes just read from the file (here `[1, 2, 3] ≠ []`). -/
theorem C9_counterexample_body_is_image :
    (generate_image_tags ⟨some "https://r.example", some "key"⟩
        (fun _ => .ok [1, 2, 3]) (fun _ => ⟨200, Json.obj []⟩) "img.png").2
      = [.fileRead "img.png",
         .httpPost ⟨"https://r.example/vision/v3.2/analyze?visualFeatures=Tags",
           [("Ocp-Apim-Subscription-Key", "key"),
            ("Content-Type", "application/octet-stream")],
           [("visualFeatures", "Tags"), ("language", "en")], [1, 2, 3]⟩]
    ∧ ([1, 2, 3] : List Nat) ≠ [] :=
  ⟨rfl, by decide⟩

/-- C9 amended: `generate_image_tags` targets `visualFeatures=Tags` both in
the URL and in the query parameters, and sends the raw image bytes as the
request body (the same body as the caption request, not a body-less
request). -/
theorem C9_request_shape (e k path : String) (he : e ≠ "") (hk : k ≠ "")
    (bytes : List Nat) (net : Network) :
    (generate_image_tags ⟨some e, some k⟩ (fun _ => .ok bytes) net path).2
      = [.fileRead path,
         .httpPost ⟨e ++ "/vision/v3.2/analyze?visualFeatures=Tags",
           [("Ocp-Apim-Subscription-Key", k),
            ("Content-Type", "application/octet-stream")],
           [("visualFeatures", "Tags"), ("language", "en")], bytes⟩] := by
  simp only [generate_image_tags, credsMissing_false e k he hk,
    Bool.false_eq_true, if_false]
  split <;> rfl

/-- C9 amended witness. -/
theorem C9_request_shape_witness :
    (generate_image_tags ⟨some "https://r.example", some "key"⟩
        (fun _ => .ok [1, 2, 3]) (fun _ => ⟨200, Json.obj []⟩) "img.png").2
      = [.fileRead "img.png",
         .httpPost ⟨"https://r.example/vision/v3.2/analyze?visualFeatures=Tags",
           [("Ocp-Apim-Subscription-Key", "key"),
            ("Content-Type", "application/octet-stream")],
           [("visualFeatures", "Tags"), ("language", "en")], [1, 2, 3]⟩] :=
  C9_request_shape "https://r.example" "key" "img.png" (by decide) (by decide)
    [1, 2, 3] (fun _ => ⟨200, Json.obj []⟩)

/-- C10: a kept tag entry (confidence 0.9) with no `"name"` field contributes
Python's `None` (`Json.null`) to the returned list, so the result is not
always a list of strings; and, in general, a tag entry with no
`"confidence"` field defaults to confidence 0 and is dropped. -/
theorem C10_null_name_and_missing_confidence :
    (generate_image_tags ⟨some "https://r.example", some "key"⟩ (fun _ => .ok [1])
        (fun _ => ⟨200, Json.obj [("tags", Json.arr
            [Json.obj [("confidence", Json.num ⟨9, 10, by decide, by decide⟩)],
             Json.obj [("name", Json.str "indoor")]])]⟩) "img.png").1
      = .ok [Json.null]
    ∧ ∀ (cf : List (String × Json)) (rest acc : List Json),
        lookupJson cf "confidence" = none →
        tagsLoop (Json.obj cf :: rest) acc = tagsLoop rest acc := by
  refine ⟨rfl, ?_⟩
  intro cf rest acc h
  have hhalf : ¬ (half ≤ (0 : ℚ)) := by
    rw [half_eq]; norm_num
  simp [tagsLoop, pyDictGet, pyDictGetD, h, pyGeHalf, hhalf,
    Bind.bind, Except.bind]

/-- C10 witness: a confidence-less entry is skipped by the loop. -/
theorem C10_null_name_and_missing_confidence_witness :
    tagsLoop [Json.obj [("name", Json.str "cat")]] [] = tagsLoop [] [] :=
  C10_null_name_and_missing_confidence.2 [("name", Json.str "cat")] [] [] rfl

end AzureVision
